import Mathlib

/-!
# Verification of the intervention-mode controller

Shallow embedding of the repository's intervention system:

* `src/agent/gello/agents/agent.py` — the `BimanualAgent` composite
  (`act`, `move_to_position`, `set_torque_mode`, `close`);
* `src/agent/experiments/run_robots.py` — the intervention worker loop,
  the controller (`start_intervention` / `stop_intervention` /
  `is_intervention_active`) and the Flask handlers
  (`api_intervene_start`, `api_intervene_stop`);
* `src/stream.py` — the aiohttp handlers delegating to the controller.

Machine floats carried by observations and joint-state samples are
modelled as `Int` values: every claim below is about call order, data
shape, splitting indices and control flow, never about float arithmetic.
-/

namespace Intervention

/-! ## Bimanual agent composite (src/agent/gello/agents/agent.py)

Calls issued by the composite to its two sub-agents are recorded as an
event trace, so that fan-out, ordering and the sleeps between commands
are visible to the theorems. -/

/-- One observable call issued by `BimanualAgent` to a sub-agent, or a
`time.sleep` it performs between such calls. -/
inductive AgentEv
  | torqueLeft (mode : Bool)
  | torqueRight (mode : Bool)
  | closeLeft
  | closeRight
  | moveLeft (target : List Int)
  | moveRight (target : List Int)
  | actRight (obs : List (String × List Int))
  | sleepMs (ms : Nat)
deriving DecidableEq, Repr

/-- A sub-agent, reduced to the one operation whose return value the
composite uses: `act` (the other operations return nothing the
composite inspects, so they appear only in the trace). -/
structure SubAgent where
  act : List (String × List Int) → List Int

namespace BimanualAgent

/-- `BimanualAgent.set_torque_mode` (agent.py lines 78-80):
`self.agent_left.set_torque_mode(mode)` then
`self.agent_right.set_torque_mode(mode)`. -/
def set_torque_mode (mode : Bool) : List AgentEv :=
  [.torqueLeft mode, .torqueRight mode]

/-- `BimanualAgent.close` (agent.py lines 82-84):
`self.agent_left.close()` then `self.agent_right.close()`. -/
def close : List AgentEv :=
  [.closeLeft, .closeRight]

/-- `BimanualAgent.move_to_position` (agent.py lines 69-76):
`time.sleep(0.05)`, `self.agent_right.move_to_position(position[7:])`,
`time.sleep(0.05)`, `self.agent_left.move_to_position(position[:7])`. -/
def move_to_position (position : List Int) : List AgentEv :=
  [.sleepMs 50, .moveRight (position.drop 7), .sleepMs 50, .moveLeft (position.take 7)]

/-- The per-key splitting loop of `BimanualAgent.act` (agent.py lines
57-64): for each key, `half_dim = L // 2`, `assert L == half_dim * 2`
(an odd length raises `AssertionError` naming the key), then
`left_obs[key] = val[:half_dim]`, `right_obs[key] = val[half_dim:]`. -/
def splitObs :
    List (String × List Int) →
    Except String (List (String × List Int) × List (String × List Int))
  | [] => .ok ([], [])
  | (key, val) :: rest =>
    let half_dim := val.length / 2
    if val.length = half_dim * 2 then
      match splitObs rest with
      | .ok (ls, rs) => .ok ((key, val.take half_dim) :: ls, (key, val.drop half_dim) :: rs)
      | .error e => .error e
    else
      .error (key ++ " must be even, something is wrong")

/-- `BimanualAgent.act` (agent.py lines 56-67): split the observation,
then return `np.concatenate([[0] * 7, self.agent_right.act(right_obs)])`.
The source builds `left_obs` but never passes it to `agent_left`; the
`agent_left` parameter is kept so that its irrelevance is provable. -/
def act (agent_left agent_right : SubAgent) (obs : List (String × List Int)) :
    Except String (List Int) :=
  match splitObs obs with
  | .ok (_left_obs, right_obs) =>
    .ok (List.replicate 7 0 ++ agent_right.act right_obs)
  | .error e => .error e

end BimanualAgent

/-! ### Trace predicates used to state ordering claims -/

/-- Is this event a right-arm `move_to_position` call? -/
def isMoveRight : AgentEv → Bool
  | .moveRight _ => true
  | _ => false

/-- Is this event a left-arm `move_to_position` call? -/
def isMoveLeft : AgentEv → Bool
  | .moveLeft _ => true
  | _ => false

/-- Is this event a right-arm `set_torque_mode` call? -/
def isTorqueRight : AgentEv → Bool
  | .torqueRight _ => true
  | _ => false

/-- Is this event a left-arm `set_torque_mode` call? -/
def isTorqueLeft : AgentEv → Bool
  | .torqueLeft _ => true
  | _ => false

/-- Is this event a left-arm `close` call? -/
def isCloseLeft : AgentEv → Bool
  | .closeLeft => true
  | _ => false

/-- Is this event a right-arm `close` call? -/
def isCloseRight : AgentEv → Bool
  | .closeRight => true
  | _ => false

/-- Index of the first event of a trace satisfying `p`, if any. -/
def firstIdx (p : AgentEv → Bool) : List AgentEv → Option Nat
  | [] => none
  | e :: tr => if p e then some 0 else (firstIdx p tr).map (· + 1)

/-- The first event satisfying `p` occurs strictly before the first
event satisfying `q` in the trace `tr` (both must occur). -/
def firstBefore (p q : AgentEv → Bool) (tr : List AgentEv) : Prop :=
  ∃ i j, firstIdx p tr = some i ∧ firstIdx q tr = some j ∧ i < j

instance (p q : AgentEv → Bool) (tr : List AgentEv) : Decidable (firstBefore p q tr) := by
  unfold firstBefore
  cases hp : firstIdx p tr with
  | none => exact .isFalse (by simp [hp])
  | some i =>
    cases hq : firstIdx q tr with
    | none => exact .isFalse (by simp [hp, hq])
    | some j =>
      refine if h : i < j then .isTrue ⟨i, j, rfl, rfl, h⟩ else .isFalse ?_
      rintro ⟨i', j', hi', hj', hlt⟩
      cases hi'; cases hj'; exact h hlt

/-- Per-key left halves of an observation: what the `act` splitting
loop stores into `left_obs` when every length is even. -/
def leftHalves (obs : List (String × List Int)) : List (String × List Int) :=
  obs.map (fun kv => (kv.1, kv.2.take (kv.2.length / 2)))

/-- Per-key right halves of an observation: what the `act` splitting
loop stores into `right_obs` when every length is even. -/
def rightHalves (obs : List (String × List Int)) : List (String × List Int) :=
  obs.map (fun kv => (kv.1, kv.2.drop (kv.2.length / 2)))

/-- Modelled from the spec: the right part of a target vector "split at
its midpoint", as the claim words it. -/
def midpointRightHalf (position : List Int) : List Int :=
  position.drop (position.length / 2)

/-- Modelled from the spec: the left part of a target vector "split at
its midpoint", as the claim words it. -/
def midpointLeftHalf (position : List Int) : List Int :=
  position.take (position.length / 2)

/-! ## Worker torque lifecycle (src/agent/experiments/run_robots.py)

`run_robots.py` lines 137-149 construct the process-wide agent as
`BimanualAgent(agent_left=None, agent_right=instantiate_from_dict(...))`.
The worker `_intervention_loop` (lines 204-281) touches torque in its
preamble and in its `finally` block; the loop body (lines 242-269) reads
joint states and sends telemetry but never changes torque mode. A call
`x.set_torque_mode(m)` with `x = None` raises `AttributeError`. -/

/-- Torque state of one physical arm. -/
structure Arm where
  torque : Bool
deriving DecidableEq, Repr

/-- The two sub-agent slots of the process-wide `BimanualAgent`;
`none` models a slot holding Python `None` (run_robots.py line 142 sets
`agent_left=None`). -/
structure RobotState where
  left : Option Arm
  right : Option Arm
deriving DecidableEq, Repr

/-- `x.set_torque_mode(mode)` on a sub-agent slot: raises
(`AttributeError`) when the slot is `None`, otherwise records the new
torque mode. -/
def setTorqueOpt (a : Option Arm) (mode : Bool) : Except Unit (Option Arm) :=
  match a with
  | none => .error ()
  | some arm => .ok (some { arm with torque := mode })

/-- Preamble of `_intervention_loop` (run_robots.py lines 215-232):
`agent.agent_right.set_torque_mode(True)`, move the right arm (no torque
effect), then `agent.agent_right.set_torque_mode(False)`. The left-arm
calls at lines 222 and 230 are commented out in the source. On an
exception the state at the failure point is returned in `.error`. -/
def interventionPreamble (r : RobotState) : Except RobotState RobotState :=
  match setTorqueOpt r.right true with
  | .error _ => .error r
  | .ok rt =>
    let r1 : RobotState := { r with right := rt }
    match setTorqueOpt r1.right false with
    | .error _ => .error r1
    | .ok rt2 => .ok { r1 with right := rt2 }

/-- The `finally` block of `_intervention_loop` (run_robots.py lines
273-281): `try: agent.agent_left.set_torque_mode(True);
agent.agent_right.set_torque_mode(True) except Exception: pass`.
When the left slot is `None` the left call raises, the shared `except`
swallows the error, and the right call is never reached. -/
def restoreFinally (r : RobotState) : RobotState :=
  match r.left with
  | none => r
  | some l =>
    let r1 : RobotState := { r with left := some { l with torque := true } }
    match r1.right with
    | none => r1
    | some ra => { r1 with right := some { ra with torque := true } }

/-- One whole run of `_intervention_loop` (run_robots.py lines 204-281),
projected to torque state. If `launched` is false the function returns
before the `try`, so the `finally` does not run (line 208-210). Otherwise
every exit path — normal stop, preamble failure, or an exception raised
mid-iteration — reaches the `finally`; since loop iterations do not
change torque mode, the state entering the `finally` is the preamble's
result (or the failure-point state). -/
def interventionWorkerRun (launched : Bool) (r : RobotState) : RobotState :=
  if launched then
    match interventionPreamble r with
    | .ok r2 => restoreFinally r2
    | .error rf => restoreFinally rf
  else r

/-- The torque mode of the right arm, if that slot holds an agent. -/
def rightTorque (r : RobotState) : Option Bool :=
  r.right.map (·.torque)

/-- The torque mode of the left arm, if that slot holds an agent. -/
def leftTorque (r : RobotState) : Option Bool :=
  r.left.map (·.torque)

/-! ## Controller state and handlers (run_robots.py, stream.py) -/

/-- A spawned worker thread, reduced to what the controller inspects:
`Thread.is_alive()`. -/
structure ThreadHandle where
  alive : Bool
deriving DecidableEq, Repr

/-- The module-level mutable state of `run_robots.py` that the
controller functions and request handlers read and write:
`launched`, `intervention_thread`, `intervention_stop_event`,
`currently_intervening`, `webrtc_intervene_endpoint`,
`curr_tracking_robot_webrtc`, `webrtc_dc` (reduced to its
`readyState`, `none` when the channel object is `None`) and
`webrtc_connected`. -/
structure Sys where
  launched : Bool
  intervention_thread : Option ThreadHandle
  intervention_stop_event : Bool
  currently_intervening : Bool
  webrtc_intervene_endpoint : Option String
  curr_tracking_robot_webrtc : Option String
  webrtc_dc_readyState : Option String
  webrtc_connected : Bool
deriving DecidableEq, Repr

/-- `is_intervention_active` (run_robots.py lines 435-436):
`intervention_thread is not None and intervention_thread.is_alive()`. -/
def is_intervention_active (s : Sys) : Bool :=
  match s.intervention_thread with
  | some t => t.alive
  | none => false

/-- `start_intervention` (run_robots.py lines 284-300). The whole body
runs under `with intervention_lock:`, so it is modelled as one atomic
transition: if the recorded thread is alive, return `False` with the
state untouched; otherwise clear the stop event, spawn a fresh (alive)
worker thread, record it, and return `True`. -/
def start_intervention (s : Sys) : Bool × Sys :=
  let isAlive :=
    match s.intervention_thread with
    | some t => t.alive
    | none => false
  if isAlive then
    (false, s)
  else
    (true, { s with
      intervention_stop_event := false
      intervention_thread := some { alive := true } })

/-- `stop_intervention` (run_robots.py lines 303-321), under the same
lock: set `currently_intervening = False`, set the stop event, join the
thread with a 2-second timeout (the join may or may not succeed — either
way), and set `intervention_thread = None`. -/
def stop_intervention (s : Sys) : Sys :=
  { s with
    currently_intervening := false
    intervention_stop_event := true
    intervention_thread := none }

/-- `stop_webrtc_connection` (run_robots.py lines 400-419): close the
DataChannel and peer connection, then clear `webrtc_pc`, `webrtc_dc`
and `webrtc_connected`. -/
def stop_webrtc_connection (s : Sys) : Sys :=
  { s with
    webrtc_dc_readyState := none
    webrtc_connected := false }

/-- `start_webrtc_connection` (run_robots.py lines 380-397): return
immediately when no endpoint is configured (Python truthiness: `None`
or the empty string); otherwise negotiate. Whether the out-of-band
handshake succeeds is an environment choice, passed as
`negotiationOk`: on success the DataChannel is recorded open and
`webrtc_connected` set, on failure `webrtc_connected` is cleared. -/
def start_webrtc_connection (s : Sys) (negotiationOk : Bool) : Sys :=
  match s.webrtc_intervene_endpoint with
  | none => s
  | some e =>
    if e = "" then s
    else if negotiationOk then
      { s with webrtc_dc_readyState := some "open", webrtc_connected := true }
    else
      { s with webrtc_connected := false }

/-- Python `str.strip()`: drop whitespace from both ends (kept
structural over the character list so it evaluates in the kernel). -/
def pyStrip (s : String) : String :=
  String.mk (((s.toList.dropWhile Char.isWhitespace).reverse.dropWhile
    Char.isWhitespace).reverse)

/-- Split a character list at the first occurrence of `sep`: returns
the part before it and the part after it, or `none` when `sep` does
not occur. -/
def splitFirstOn (sep : List Char) : List Char → Option (List Char × List Char)
  | [] => none
  | c :: rest =>
    if sep.isPrefixOf (c :: rest) then some ([], (c :: rest).drop sep.length)
    else
      match splitFirstOn sep rest with
      | some (a, b) => some (c :: a, b)
      | none => none

/-- The endpoint rewriting of `api_intervene_start` (run_robots.py
lines 487-495): prefix `http://` when the address contains no `://`,
then rebuild the URL with path `/client/intervene` and no params,
query or fragment — modelling `urlparse` / `_replace` / `urlunparse`
on scheme-and-authority URLs (the netloc ends at the first of
`/`, `?`, `#`). -/
def deriveNegotiationEndpoint (streamAddress : String) : String :=
  let url :=
    if (splitFirstOn [':', '/', '/'] streamAddress.toList).isSome then streamAddress
    else "http://" ++ streamAddress
  match splitFirstOn [':', '/', '/'] url.toList with
  | some (scheme, afterScheme) =>
    let netloc := afterScheme.takeWhile (fun c => c != '/' && c != '?' && c != '#')
    String.mk (scheme ++ [':', '/', '/'] ++ netloc) ++ "/client/intervene"
  | none => url ++ "/client/intervene"

/-- Status strings returned by the request handlers of
`run_robots.py` and `stream.py`. -/
inductive ApiStatus
  | started
  | already_active
  | not_launched
  | not_active
  | stopped
deriving DecidableEq, Repr

/-- An HTTP response from a handler: its `status` field and the HTTP
status code. -/
structure ApiResponse where
  status : ApiStatus
  code : Nat
deriving DecidableEq, Repr

/-- `POST /intervene` handler `api_intervene_start` (run_robots.py
lines 469-512): reject with `not_launched`/400 when robots were never
launched; answer `already_active`/200 when a worker is alive; otherwise
derive (or clear) the negotiation endpoint from the optional
`streamAddress` (stripped; a failed negotiation attempt is swallowed at
line 500-501), call `intervene()` — which starts the worker and discards
the result — and answer `already_active`/200 (lines 510-512: the handler
returns `already_active` even on the path that just started). -/
def api_intervene_start (s : Sys) (streamAddress : Option String)
    (negotiationOk : Bool) : ApiResponse × Sys :=
  if ¬ s.launched then
    ({ status := .not_launched, code := 400 }, s)
  else if is_intervention_active s then
    ({ status := .already_active, code := 200 }, s)
  else
    let stream_address := pyStrip (streamAddress.getD "")
    let s1 :=
      if stream_address ≠ "" then
        start_webrtc_connection
          { s with
            webrtc_intervene_endpoint := some (deriveNegotiationEndpoint stream_address)
            curr_tracking_robot_webrtc := some stream_address }
          negotiationOk
      else
        { s with
          webrtc_intervene_endpoint := none
          curr_tracking_robot_webrtc := none }
    let s2 := (start_intervention s1).2
    ({ status := .already_active, code := 200 }, s2)

/-- `DELETE /intervene` handler `api_intervene_stop` (run_robots.py
lines 515-525): answer `not_active`/400 untouched when no worker is
alive; otherwise close the WebRTC connection, stop the worker and
answer `stopped`/200. -/
def api_intervene_stop (s : Sys) : ApiResponse × Sys :=
  if ¬ is_intervention_active s then
    ({ status := .not_active, code := 400 }, s)
  else
    let s1 := stop_webrtc_connection s
    let s2 := stop_intervention s1
    ({ status := .stopped, code := 200 }, s2)

/-- aiohttp handler `start_intervention` (stream.py lines 352-363):
`not_launched`/400 when not launched, else delegate to the controller's
`start_intervention` and report `started` or `already_active`. -/
def stream_start_intervention (s : Sys) : ApiResponse × Sys :=
  if ¬ s.launched then
    ({ status := .not_launched, code := 400 }, s)
  else
    let (started, s1) := start_intervention s
    if started then
      ({ status := .started, code := 200 }, s1)
    else
      ({ status := .already_active, code := 200 }, s1)

/-- aiohttp handler `stop_intervention` (stream.py lines 366-374):
`not_active`/200 untouched when no worker is alive, else delegate to
the controller's `stop_intervention` and report `stopped`. -/
def stream_stop_intervention (s : Sys) : ApiResponse × Sys :=
  if ¬ is_intervention_active s then
    ({ status := .not_active, code := 200 }, s)
  else
    ({ status := .stopped, code := 200 }, stop_intervention s)

/-! ## Telemetry payloads and per-iteration transport selection
(run_robots.py lines 247-267) -/

/-- A JSON value, with object fields kept in insertion order (Python
dict literals preserve it; the wire shape is the field list). Numbers
stand for the float values the source serialises. -/
inductive JsonVal
  | num (n : Int)
  | str (s : String)
  | arr (elems : List JsonVal)
  | obj (fields : List (String × JsonVal))

/-- The top-level field names of a JSON object, in order. -/
def keysOf : JsonVal → List String
  | .obj fields => fields.map (·.1)
  | _ => []

/-- Look up a top-level field of a JSON object. -/
def fieldOf (v : JsonVal) (key : String) : Option JsonVal :=
  match v with
  | .obj fields => (fields.find? (fun f => f.1 == key)).map (·.2)
  | _ => none

/-- The sample sent on the WebRTC DataChannel (run_robots.py lines
250-253): `{"joint_states": joint_states.tolist(), "timestamp":
time.time()}`. -/
def webrtcTelemetryPayload (joint_states : List Int) (timestamp : Int) : JsonVal :=
  .obj [("joint_states", .arr (joint_states.map .num)), ("timestamp", .num timestamp)]

/-- The body of the HTTP fallback POST (run_robots.py line 256):
`json.dumps({"joint_states": joint_states.tolist()})` — no
`timestamp` field. -/
def httpTelemetryPayload (joint_states : List Int) : JsonVal :=
  .obj [("joint_states", .arr (joint_states.map .num))]

/-- The transport action one loop iteration takes for its sample. -/
inductive TransportChoice
  | sessionChannel (payload : JsonVal)
  | httpPost (url : String) (timeoutMs : Nat) (payload : JsonVal)
  | noSend

/-- The transport kind, payloads and targets erased, used to compare
the code's selection against the spec's stated policy. -/
inductive ChoiceKind
  | channel
  | http
  | skip
deriving DecidableEq, Repr

/-- Erase a `TransportChoice` to its kind. -/
def kindOf : TransportChoice → ChoiceKind
  | .sessionChannel _ => .channel
  | .httpPost _ _ _ => .http
  | .noSend => .skip

/-- The per-iteration transport selection (run_robots.py lines
249-264): `if webrtc_dc is not None and getattr(webrtc_dc,
"readyState", "") == "open"` send the channel payload; `elif
webrtc_intervene_endpoint:` (truthy: non-`None` and non-empty) issue
one POST with `timeout=0.05` (50 ms); else do nothing. -/
def telemetrySelect (dc : Option String) (endpoint : Option String)
    (joint_states : List Int) (now : Int) : TransportChoice :=
  if (dc.getD "") = "open" then
    .sessionChannel (webrtcTelemetryPayload joint_states now)
  else
    match endpoint with
    | some url => if url ≠ "" then .httpPost url 50 (httpTelemetryPayload joint_states) else .noSend
    | none => .noSend

/-- Modelled from the spec: the selection policy of section 4.2 in the
spec's own words — "if a session channel exists and reports open, send
the sample there; else if a fallback URL is configured, issue a single
short-timeout HTTP POST; else do nothing." -/
def selectionPolicySpec (dc : Option String) (endpoint : Option String) : ChoiceKind :=
  if dc.any (fun st => st == "open") then .channel
  else if endpoint.any (fun u => u != "") then .http
  else .skip

/-- The `try ... except (URLError, HTTPError, Exception): pass` wrapper
around the whole send (run_robots.py lines 248-267): whatever the
attempted send does — succeed or raise — the iteration continues. -/
def telemetryStep (dc : Option String) (endpoint : Option String)
    (joint_states : List Int) (now : Int)
    (sendOutcome : TransportChoice → Except String Unit) : Except String Unit :=
  match sendOutcome (telemetrySelect dc endpoint joint_states now) with
  | .ok _ => .ok ()
  | .error _ => .ok ()

/-! ## Concrete fixtures for counterexamples and witnesses -/

/-- A system state after launch with no session ever started:
`launched = True`, no worker thread, all WebRTC state clear. -/
def sysIdleLaunched : Sys :=
  { launched := true
    intervention_thread := none
    intervention_stop_event := false
    currently_intervening := false
    webrtc_intervene_endpoint := none
    curr_tracking_robot_webrtc := none
    webrtc_dc_readyState := none
    webrtc_connected := false }

/-- A system state with a live worker thread recorded. -/
def sysActive : Sys :=
  { sysIdleLaunched with
    intervention_thread := some { alive := true }
    currently_intervening := true }

/-- A 16-entry target vector (distinct entries), whose midpoint split
differs from a split at index 7. -/
def target16 : List Int :=
  [1, 2, 3, 4, 5, 6, 7, 8, 9, 10, 11, 12, 13, 14, 15, 16]

/-- An observation with one odd-length array. -/
def obsOdd : List (String × List Int) :=
  [("joint_positions", [1, 2, 3])]

/-- An observation whose arrays all have even length. -/
def obsEven : List (String × List Int) :=
  [("joint_positions", [1, 2, 3, 4])]

/-- A concrete sub-agent whose `act` always answers `[5]`. -/
def subAgentW : SubAgent :=
  { act := fun _ => [5] }

/-- A second concrete sub-agent, different from `subAgentW`. -/
def subAgentW2 : SubAgent :=
  { act := fun _ => [9] }

/-! ## Helper lemmas -/

/-- Whenever the splitting loop of `act` succeeds, it returns exactly
the per-key half splits. -/
theorem splitObs_ok_eq :
    ∀ (obs : List (String × List Int)) (p : List (String × List Int) × List (String × List Int)),
      BimanualAgent.splitObs obs = .ok p → p = (leftHalves obs, rightHalves obs)
  | [], p, h => by
    simp [BimanualAgent.splitObs] at h
    simp [← h, leftHalves, rightHalves]
  | (key, val) :: rest, p, h => by
    simp only [BimanualAgent.splitObs] at h
    by_cases hc : val.length = val.length / 2 * 2
    · rw [if_pos hc] at h
      cases hrest : BimanualAgent.splitObs rest with
      | ok q =>
        rw [hrest] at h
        have hq := splitObs_ok_eq rest q hrest
        cases q with
        | mk ls rs =>
          simp only at h
          cases h
          simp only [Prod.mk.injEq] at hq
          simp [leftHalves, rightHalves, hq.1, hq.2]
      | error e => rw [hrest] at h; cases h
    · rw [if_neg hc] at h; cases h

/-- When every per-key array has even length, the splitting loop of
`act` succeeds with the per-key half splits. -/
theorem splitObs_even :
    ∀ (obs : List (String × List Int)),
      (∀ kv ∈ obs, kv.2.length % 2 = 0) →
      BimanualAgent.splitObs obs = .ok (leftHalves obs, rightHalves obs)
  | [], _ => by simp [BimanualAgent.splitObs, leftHalves, rightHalves]
  | (key, val) :: rest, h => by
    have hv : val.length % 2 = 0 := h (key, val) (List.mem_cons_self _ _)
    have hrest := splitObs_even rest (fun kv hkv => h kv (List.mem_cons_of_mem _ hkv))
    have hc : val.length = val.length / 2 * 2 := by omega
    simp only [BimanualAgent.splitObs]
    rw [if_pos hc, hrest]
    simp [leftHalves, rightHalves]

/-- When some per-key array has odd length, the splitting loop of
`act` raises (`AssertionError`). -/
theorem splitObs_odd :
    ∀ (obs : List (String × List Int)),
      (∃ kv ∈ obs, kv.2.length % 2 = 1) →
      ∃ e, BimanualAgent.splitObs obs = .error e
  | [], h => by simp at h
  | (key, val) :: rest, h => by
    by_cases hc : val.length = val.length / 2 * 2
    · have hrest : ∃ kv ∈ rest, kv.2.length % 2 = 1 := by
        rcases h with ⟨kv, hmem, hodd⟩
        rcases List.mem_cons.mp hmem with heq | hmem'
        · exfalso; rw [heq] at hodd; simp only at hodd; omega
        · exact ⟨kv, hmem', hodd⟩
      rcases splitObs_odd rest hrest with ⟨e, he⟩
      refine ⟨e, ?_⟩
      simp only [BimanualAgent.splitObs]
      rw [if_pos hc, he]
    · refine ⟨key ++ " must be even, something is wrong", ?_⟩
      simp only [BimanualAgent.splitObs]
      rw [if_neg hc]

/-- `start_intervention` always leaves a live worker recorded: either
the already-alive one, or the one it just spawned. -/
theorem start_intervention_leaves_active (s : Sys) :
    is_intervention_active (start_intervention s).2 = true := by
  unfold start_intervention is_intervention_active
  cases h : s.intervention_thread with
  | none => simp
  | some t =>
    by_cases ha : t.alive
    · simp [h, ha]
    · simp [h, ha]

/-! ## Claim theorems -/

/-- C1: the claim says torque mode is re-enabled on every composed arm
on every exit path of the worker. The code violates it: the process
constructs `BimanualAgent(agent_left=None, ...)`, so the `finally`
block's first call `agent.agent_left.set_torque_mode(True)` raises
`AttributeError`, the shared `except` swallows it, and the right arm is
left with torque disabled by the preamble — here shown on the normal
exit path starting from a torque-enabled right arm. The last conjunct
shows the `finally` block would restore both arms had both slots held
agents, confirming the claim matches the code's own stated intent
("Restore safe state on exit"). -/
theorem c1_finally_leaves_right_torque_disabled :
    rightTorque (interventionWorkerRun true { left := none, right := some { torque := true } })
      = some false
    ∧ interventionWorkerRun true { left := none, right := some { torque := true } }
      = { left := none, right := some { torque := false } }
    ∧ restoreFinally { left := some { torque := false }, right := some { torque := false } }
      = { left := some { torque := true }, right := some { torque := true } } :=
  ⟨rfl, rfl, rfl⟩

/-- C3: calling `start_intervention` while the recorded worker thread
is alive returns the already-active signal `False` (no error) and
leaves the state — in particular the recorded worker thread — exactly
as it was, so no second worker is spawned. The source holds
`intervention_lock` across the whole check-and-spawn, which this
single atomic transition models. -/
theorem c3_start_when_alive_idempotent (s : Sys) (t : ThreadHandle)
    (hthread : s.intervention_thread = some t) (halive : t.alive = true) :
    start_intervention s = (false, s) := by
  unfold start_intervention
  rw [hthread]
  simp [halive]

/-- Witness for C3 at the concrete live-worker state `sysActive`. -/
theorem c3_start_when_alive_idempotent_witness :
    start_intervention sysActive = (false, sysActive) :=
  c3_start_when_alive_idempotent sysActive { alive := true } rfl rfl

/-- C9: a stop request issued while no worker is alive answers
`not_active` (HTTP 400 from the Flask handler, HTTP 200 from the
aiohttp handler) and returns the controller state untouched — nothing
is spawned or changed. -/
theorem c9_stop_when_inactive (s : Sys)
    (h : is_intervention_active s = false) :
    api_intervene_stop s = ({ status := .not_active, code := 400 }, s)
    ∧ stream_stop_intervention s = ({ status := .not_active, code := 200 }, s) := by
  unfold api_intervene_stop stream_stop_intervention
  simp [h]

/-- Witness for C9 at the concrete idle state `sysIdleLaunched`. -/
theorem c9_stop_when_inactive_witness :
    api_intervene_stop sysIdleLaunched
      = ({ status := .not_active, code := 400 }, sysIdleLaunched)
    ∧ stream_stop_intervention sysIdleLaunched
      = ({ status := .not_active, code := 200 }, sysIdleLaunched) :=
  c9_stop_when_inactive sysIdleLaunched rfl

/-- C2 counterexample: from the launched idle state (no worker alive),
one `POST /intervene` does start a new session — the post-state has a
live worker — yet the handler answers `already_active`, not `started`,
refuting the claim that a request starting a new session receives
`started`. -/
theorem c2_started_status_counterexample :
    is_intervention_active sysIdleLaunched = false
    ∧ is_intervention_active (api_intervene_start sysIdleLaunched none true).2 = true
    ∧ (api_intervene_start sysIdleLaunched none true).1.status ≠ ApiStatus.started
    ∧ (api_intervene_start sysIdleLaunched none true).1.status = ApiStatus.already_active := by
  refine ⟨rfl, ?_, ?_, ?_⟩ <;> decide

/-- C2 amended: every `POST /intervene` answers `not_launched` exactly
when the robot agent was never constructed and `already_active`
otherwise — including the one request that actually starts a new
session (the handler never returns `started`); when launched, the
post-state always has a live worker, so among concurrent start
requests still at most one worker ever runs. -/
theorem c2_start_always_already_active (s : Sys) (streamAddress : Option String)
    (negotiationOk : Bool) :
    ((api_intervene_start s streamAddress negotiationOk).1.status
      = if s.launched = true then ApiStatus.already_active else ApiStatus.not_launched)
    ∧ (api_intervene_start s streamAddress negotiationOk).1.status ≠ ApiStatus.started
    ∧ (s.launched = true →
        is_intervention_active (api_intervene_start s streamAddress negotiationOk).2 = true) := by
  unfold api_intervene_start
  by_cases hl : s.launched = true
  · by_cases ha : is_intervention_active s = true
    · simp [hl, ha]
    · simp only [hl, Bool.not_eq_true] at *
      simp only [hl, ha]
      simp only [not_true, if_false, Bool.false_eq_true, not_false_iff, if_true]
      refine ⟨by simp, by simp, fun _ => ?_⟩
      split <;> exact start_intervention_leaves_active _
  · simp only [Bool.not_eq_true] at hl
    simp [hl]

/-- Witness for C2 at the concrete launched idle state. -/
theorem c2_start_always_already_active_witness :
    (api_intervene_start sysIdleLaunched none true).1.status = ApiStatus.already_active
    ∧ is_intervention_active (api_intervene_start sysIdleLaunched none true).2 = true :=
  ⟨by
    have h := (c2_start_always_already_active sysIdleLaunched none true).1
    simpa using h,
   (c2_start_always_already_active sysIdleLaunched none true).2.2 rfl⟩

/-- C4 counterexample: for the same joint-state sample, the payload
chosen for the session channel carries the fields
`joint_states, timestamp`, while the HTTP fallback body carries only
`joint_states` — the two wire shapes are not identical. -/
theorem c4_payload_shape_counterexample :
    telemetrySelect (some "open") (some "http://h/client/intervene") [1, 2] 7
      = .sessionChannel (webrtcTelemetryPayload [1, 2] 7)
    ∧ telemetrySelect none (some "http://h/client/intervene") [1, 2] 7
      = .httpPost "http://h/client/intervene" 50 (httpTelemetryPayload [1, 2])
    ∧ keysOf (webrtcTelemetryPayload [1, 2] 7) = ["joint_states", "timestamp"]
    ∧ keysOf (httpTelemetryPayload [1, 2]) = ["joint_states"]
    ∧ webrtcTelemetryPayload [1, 2] 7 ≠ httpTelemetryPayload [1, 2] := by
  refine ⟨rfl, rfl, rfl, rfl, fun h => ?_⟩
  have hk := congrArg keysOf h
  simp [keysOf, webrtcTelemetryPayload, httpTelemetryPayload] at hk

/-- C4 amended: the session-channel sample always has exactly the shape
`{joint_states: ordered float sequence, timestamp: epoch seconds}`,
while the HTTP fallback body has only the `joint_states` field (no
`timestamp`); both carry the same ordered `joint_states` sequence. -/
theorem c4_payload_shapes (joint_states : List Int) (t : Int) :
    keysOf (webrtcTelemetryPayload joint_states t) = ["joint_states", "timestamp"]
    ∧ keysOf (httpTelemetryPayload joint_states) = ["joint_states"]
    ∧ fieldOf (webrtcTelemetryPayload joint_states t) "joint_states"
      = some (.arr (joint_states.map .num))
    ∧ fieldOf (httpTelemetryPayload joint_states) "joint_states"
      = some (.arr (joint_states.map .num))
    ∧ fieldOf (webrtcTelemetryPayload joint_states t) "timestamp" = some (.num t)
    ∧ fieldOf (httpTelemetryPayload joint_states) "timestamp" = none := by
  refine ⟨rfl, rfl, rfl, rfl, rfl, rfl⟩

/-- C5 counterexample: in the composite's `set_torque_mode` and `close`
traces the right-arm call does not come first — refuting the claimed
right-before-left order. -/
theorem c5_fanout_order_counterexample :
    ¬ firstBefore isTorqueRight isTorqueLeft (BimanualAgent.set_torque_mode true)
    ∧ ¬ firstBefore isCloseRight isCloseLeft BimanualAgent.close := by
  constructor <;> decide

/-- C5 amended: `set_torque_mode` and `close` are fanned out to both
underlying agents, with the left agent invoked strictly before the
right agent (the preamble order of the claim is reversed in the
code). -/
theorem c5_fanout_left_before_right (mode : Bool) :
    AgentEv.torqueLeft mode ∈ BimanualAgent.set_torque_mode mode
    ∧ AgentEv.torqueRight mode ∈ BimanualAgent.set_torque_mode mode
    ∧ firstBefore isTorqueLeft isTorqueRight (BimanualAgent.set_torque_mode mode)
    ∧ AgentEv.closeLeft ∈ BimanualAgent.close
    ∧ AgentEv.closeRight ∈ BimanualAgent.close
    ∧ firstBefore isCloseLeft isCloseRight BimanualAgent.close := by
  cases mode <;> exact ⟨by decide, by decide, by decide, by decide, by decide, by decide⟩

/-- C6 counterexample: on a 16-entry target the composite's
`move_to_position` commands the right arm with `position[7:]` (9
entries), not with the midpoint half `position[8:]` — the split is at
the fixed index 7, not at the midpoint. -/
theorem c6_midpoint_split_counterexample :
    AgentEv.moveRight (midpointRightHalf target16) ∉ BimanualAgent.move_to_position target16
    ∧ AgentEv.moveRight (target16.drop 7) ∈ BimanualAgent.move_to_position target16
    ∧ midpointRightHalf target16 ≠ target16.drop 7 := by
  refine ⟨?_, ?_, ?_⟩ <;> decide

/-- C6 amended: `move_to_position` splits the target at the fixed index
7 — the first 7 entries go to the left arm, the remainder to the right
arm (this is the midpoint only for 14-entry targets); the right-arm
move is issued strictly before the left-arm move, and a non-zero
(50 ms) sleep sits strictly between the two commands. -/
theorem c6_move_fixed_split_right_first (position : List Int) :
    AgentEv.moveRight (position.drop 7) ∈ BimanualAgent.move_to_position position
    ∧ AgentEv.moveLeft (position.take 7) ∈ BimanualAgent.move_to_position position
    ∧ firstBefore isMoveRight isMoveLeft (BimanualAgent.move_to_position position)
    ∧ ∃ i k j,
        firstIdx isMoveRight (BimanualAgent.move_to_position position) = some i
        ∧ firstIdx isMoveLeft (BimanualAgent.move_to_position position) = some j
        ∧ (BimanualAgent.move_to_position position)[k]? = some (.sleepMs 50)
        ∧ 0 < 50
        ∧ i < k ∧ k < j := by
  refine ⟨?_, ?_, ⟨1, 3, ?_, ?_, ?_⟩, 1, 2, 3, ?_, ?_, rfl, ?_, ?_, ?_⟩
  · simp [BimanualAgent.move_to_position]
  · simp [BimanualAgent.move_to_position]
  · simp [BimanualAgent.move_to_position, firstIdx, isMoveRight]
  · simp [BimanualAgent.move_to_position, firstIdx, isMoveLeft]
  · decide
  · simp [BimanualAgent.move_to_position, firstIdx, isMoveRight]
  · simp [BimanualAgent.move_to_position, firstIdx, isMoveLeft]
  · decide
  · decide
  · decide

/-- C7: each loop iteration selects the telemetry transport exactly as
the spec's policy states — session channel when it exists and reports
`open`, else one HTTP POST when a fallback URL is configured, else
nothing; any POST it issues carries a timeout of at most 50 ms; and
whatever the attempted send does — succeed or raise — the iteration's
telemetry block returns normally, so a send error never propagates into
the control loop. -/
theorem c7_telemetry_policy_and_swallow (dc endpoint : Option String)
    (joint_states : List Int) (now : Int)
    (sendOutcome : TransportChoice → Except String Unit) :
    kindOf (telemetrySelect dc endpoint joint_states now) = selectionPolicySpec dc endpoint
    ∧ (∀ url t p, telemetrySelect dc endpoint joint_states now = .httpPost url t p → t ≤ 50)
    ∧ telemetryStep dc endpoint joint_states now sendOutcome = .ok () := by
  have hfall :
      kindOf (match endpoint with
        | some url =>
          if url ≠ "" then TransportChoice.httpPost url 50 (httpTelemetryPayload joint_states)
          else .noSend
        | none => .noSend)
        = (if endpoint.any (fun u => u != "") then ChoiceKind.http else ChoiceKind.skip) := by
    cases endpoint with
    | none => rfl
    | some url =>
      by_cases hu : url = ""
      · simp [hu, kindOf]
      · simp [hu, kindOf]
  refine ⟨?_, ?_, ?_⟩
  · unfold telemetrySelect selectionPolicySpec
    by_cases hdc : (dc.getD "") = "open"
    · have hspec : dc.any (fun st => st == "open") = true := by
        cases dc with
        | none => simp at hdc
        | some s => simpa using hdc
      rw [if_pos hdc, hspec]
      rfl
    · have hspec : dc.any (fun st => st == "open") = false := by
        cases dc with
        | none => rfl
        | some s => simpa using hdc
      rw [if_neg hdc, hspec]
      simpa using hfall
  · intro url t p h
    unfold telemetrySelect at h
    by_cases hdc : (dc.getD "") = "open"
    · rw [if_pos hdc] at h; cases h
    · rw [if_neg hdc] at h
      cases endpoint with
      | none => cases h
      | some u =>
        by_cases hu : u = ""
        · simp only [hu] at h
          simp at h
        · simp only [if_pos (by simpa using hu : u ≠ "")] at h
          cases h
          exact le_refl 50
  · unfold telemetryStep
    cases sendOutcome (telemetrySelect dc endpoint joint_states now) <;> rfl

/-- Witness for C7: with no channel, a configured fallback URL and a
send that raises, the iteration picks the HTTP fallback (timeout
50 ms ≤ 50 ms) and still returns normally. -/
theorem c7_telemetry_policy_and_swallow_witness :
    kindOf (telemetrySelect none (some "http://h/client/intervene") [1] 0) = ChoiceKind.http
    ∧ (50 : Nat) ≤ 50
    ∧ telemetryStep none (some "http://h/client/intervene") [1] 0
        (fun _ => .error "connection refused") = .ok () :=
  ⟨((c7_telemetry_policy_and_swallow none (some "http://h/client/intervene") [1] 0
      (fun _ => .error "connection refused")).1).trans (by decide),
   (c7_telemetry_policy_and_swallow none (some "http://h/client/intervene") [1] 0
      (fun _ => .error "connection refused")).2.1 "http://h/client/intervene" 50
      (httpTelemetryPayload [1]) rfl,
   (c7_telemetry_policy_and_swallow none (some "http://h/client/intervene") [1] 0
      (fun _ => .error "connection refused")).2.2⟩

/-- C8: the composite's `act` rejects (raises `AssertionError`) any
observation containing an odd-length array, and on an all-even
observation it succeeds, splitting every key's array exactly in half —
each half of length `L / 2`, the two halves reassembling the array —
with the right halves passed to the right sub-agent. -/
theorem c8_act_parity (agent_left agent_right : SubAgent)
    (obs : List (String × List Int)) :
    ((∃ kv ∈ obs, kv.2.length % 2 = 1) →
      ∃ e, BimanualAgent.act agent_left agent_right obs = .error e)
    ∧ ((∀ kv ∈ obs, kv.2.length % 2 = 0) →
      BimanualAgent.act agent_left agent_right obs
        = .ok (List.replicate 7 0 ++ agent_right.act (rightHalves obs))
      ∧ ∀ kv ∈ obs,
          (kv.2.take (kv.2.length / 2)).length = kv.2.length / 2
          ∧ (kv.2.drop (kv.2.length / 2)).length = kv.2.length / 2
          ∧ kv.2.take (kv.2.length / 2) ++ kv.2.drop (kv.2.length / 2) = kv.2) := by
  constructor
  · intro h
    rcases splitObs_odd obs h with ⟨e, he⟩
    exact ⟨e, by unfold BimanualAgent.act; rw [he]⟩
  · intro h
    refine ⟨by unfold BimanualAgent.act; rw [splitObs_even obs h], ?_⟩
    intro kv hkv
    have hev : kv.2.length % 2 = 0 := h kv hkv
    refine ⟨?_, ?_, List.take_append_drop _ _⟩
    · rw [List.length_take]; omega
    · rw [List.length_drop]; omega

/-- Witness for C8: a single odd-length key is rejected, a single
even-length key is split and accepted. -/
theorem c8_act_parity_witness :
    (∃ e, BimanualAgent.act subAgentW subAgentW obsOdd = .error e)
    ∧ BimanualAgent.act subAgentW subAgentW obsEven
      = .ok (List.replicate 7 0 ++ subAgentW.act (rightHalves obsEven)) :=
  ⟨(c8_act_parity subAgentW subAgentW obsOdd).1 (by decide),
   ((c8_act_parity subAgentW subAgentW obsEven).2 (by decide)).1⟩

/-- C10: the composite's `act` never invokes the left sub-agent — its
result is the same for any two left sub-agents — and every accepted
observation yields the concatenation of seven zero entries with the
right sub-agent's action, of length `7 +` that action's length. -/
theorem c10_left_arm_ignored (l₁ l₂ agent_right : SubAgent)
    (obs : List (String × List Int)) :
    BimanualAgent.act l₁ agent_right obs = BimanualAgent.act l₂ agent_right obs
    ∧ ∀ res, BimanualAgent.act l₁ agent_right obs = .ok res →
        res = List.replicate 7 0 ++ agent_right.act (rightHalves obs)
        ∧ res.length = 7 + (agent_right.act (rightHalves obs)).length := by
  constructor
  · rfl
  · intro res hres
    unfold BimanualAgent.act at hres
    cases hsplit : BimanualAgent.splitObs obs with
    | ok p =>
      rw [hsplit] at hres
      have hp := splitObs_ok_eq obs p hsplit
      cases p with
      | mk lo ro =>
        simp only at hres
        cases hres
        simp only [Prod.mk.injEq] at hp
        rw [hp.2]
        exact ⟨rfl, by simp; omega⟩
    | error e => rw [hsplit] at hres; cases hres

/-- Witness for C10: two different left sub-agents give the same
result, and the accepted concrete observation yields seven zeros
followed by the right action. -/
theorem c10_left_arm_ignored_witness :
    BimanualAgent.act subAgentW2 subAgentW obsEven
      = BimanualAgent.act subAgentW subAgentW obsEven
    ∧ (([0, 0, 0, 0, 0, 0, 0, 5] : List Int)
        = List.replicate 7 0 ++ subAgentW.act (rightHalves obsEven)
      ∧ ([0, 0, 0, 0, 0, 0, 0, 5] : List Int).length
        = 7 + (subAgentW.act (rightHalves obsEven)).length) :=
  ⟨(c10_left_arm_ignored subAgentW2 subAgentW subAgentW obsEven).1,
   (c10_left_arm_ignored subAgentW2 subAgentW subAgentW obsEven).2 _ rfl⟩

end Intervention
